import Mathlib

/-!
Shallow embedding of the topology-construction logic of
`lib/http-api-private-integration-ecs-stack.ts` (class
`HttpApiPrivateIntegrationEcsStack`): the VPC, internal ALB with its
listener rules, ECS Fargate service, VPC endpoints for ECR/logs/S3, and
the API Gateway VPC link.  Target group A is the code's
`SampleApiTargetGroup`, target group B is `SampleApiCustomerTargetGroup`.
-/

namespace HttpApiPrivateIntegrationEcs

/-- Subnet visibility classes used by the stack (`SubnetType` in the source). -/
inductive SubnetKind where
  | publicSubnet
  | privateWithEgress
  | isolatedSubnet
deriving DecidableEq, Repr

/-- One subnet of the VPC, with its availability-zone index and CIDR block. -/
structure SubnetModel where
  kind : SubnetKind
  azIndex : Nat
  ipv4CidrBlock : String
deriving DecidableEq, Repr

/-- Properties passed to the `Vpc` construct in `setupVpc` (source lines 61-66). -/
structure VpcProps where
  maxAzs : Nat
  natGateways : Nat
deriving DecidableEq, Repr

/-- The stack's fixed VPC configuration: `maxAzs: 2, natGateways: 0`. -/
def vpcProps : VpcProps := { maxAzs := 2, natGateways := 0 }

/-- Modelled from the spec: the Network Boundary produces, for each
availability zone, one public and one isolated subnet group, and with zero
NAT gateways no private-with-egress subnet exists (spec sections 2 and 4.1;
the subnet-layout logic lives in the external `Vpc` construct, not under
`src/`).  CIDR blocks are assigned consecutively, one per subnet. -/
def vpcSubnets (props : VpcProps) : List SubnetModel :=
  (List.range props.maxAzs).flatMap (fun i =>
    [ { kind := SubnetKind.publicSubnet, azIndex := i,
        ipv4CidrBlock := "10.0." ++ toString i ++ ".0/24" },
      { kind := SubnetKind.isolatedSubnet, azIndex := i,
        ipv4CidrBlock := "10.0." ++ toString (props.maxAzs + i) ++ ".0/24" } ])

/-- `vpc.selectSubnets({subnetType: ...})`: the subnets of one visibility class. -/
def selectSubnets (subnets : List SubnetModel) (k : SubnetKind) : List SubnetModel :=
  subnets.filter (fun s => s.kind == k)

/-- A source for a security-group ingress rule (`Peer` in the source). -/
inductive PeerSpec where
  | anyIpv4
  | ipv4Peer (cidr : String)
deriving DecidableEq, Repr

/-- One allow-rule of a security group; only `Port.tcp` ports occur in the stack. -/
structure IngressRule where
  peer : PeerSpec
  tcpPort : Nat
deriving DecidableEq, Repr

/-- Ingress rules of `InternalAlbSg` (source line 74): TCP/80 from any IPv4 source. -/
def internalAlbSgIngress : List IngressRule :=
  [ { peer := PeerSpec.anyIpv4, tcpPort := 80 } ]

/-- Ingress rules of `InterfaceEndpointSecurityGroup` (source lines 177-179):
the loop adds, for each selected isolated subnet, TCP/443 from that
subnet's IPv4 CIDR block. -/
def interfaceEndpointSgIngress (isolated : List SubnetModel) : List IngressRule :=
  isolated.foldl
    (fun acc s => acc ++ [ { peer := PeerSpec.ipv4Peer s.ipv4CidrBlock, tcpPort := 443 } ]) []

/-- Properties of the internal ALB (source lines 77-82). -/
structure AlbProps where
  internetFacing : Bool
  subnetKind : SubnetKind
deriving DecidableEq, Repr

/-- The stack's internal ALB: not internet facing, in the isolated subnets. -/
def internalAlbProps : AlbProps :=
  { internetFacing := false, subnetKind := SubnetKind.isolatedSubnet }

/-- A listener action: either a fixed HTTP response or forwarding to a target group. -/
inductive ListenerActionModel where
  | fixedResponse (status : Nat) (messageBody : String)
  | forward (targetGroupId : String)
deriving DecidableEq, Repr

/-- The listener's default action (source lines 88-92):
`ListenerAction.fixedResponse(200, \x7bmessageBody: "No routes defined"\x7d)`. -/
def defaultAction : ListenerActionModel :=
  ListenerActionModel.fixedResponse 200 "No routes defined"

/-- A listener routing rule: priority, path patterns, target group, health-check path. -/
structure RuleModel where
  priority : Nat
  pathPatterns : List String
  targetGroupId : String
  healthCheckPath : String
deriving DecidableEq, Repr

/-- The first target registration (source lines 134-147): priority 1,
path pattern `/`, target group `SampleApiTargetGroup`, health check `/`. -/
def sampleApiRule : RuleModel :=
  { priority := 1, pathPatterns := ["/"],
    targetGroupId := "SampleApiTargetGroup", healthCheckPath := "/" }

/-- The second target registration (source lines 148-161): priority 2,
path pattern `/customers`, target group `SampleApiCustomerTargetGroup`,
health check `/`. -/
def sampleApiCustomerRule : RuleModel :=
  { priority := 2, pathPatterns := ["/customers"],
    targetGroupId := "SampleApiCustomerTargetGroup", healthCheckPath := "/" }

/-- Modelled from the spec: `addRule(priority, pathPatterns, targetGroup,
healthCheckPath)` fails if `priority` collides with an existing rule
(spec section 4.3); the duplicate-priority validation is performed by the
external load-balancer listener library, not by code under `src/`. -/
def addRule (rules : List RuleModel) (r : RuleModel) : Except String (List RuleModel) :=
  if rules.any (fun q => q.priority == r.priority) then
    Except.error "duplicate rule priority"
  else
    Except.ok (rules ++ [r])

/-- `registerLoadBalancerTargets` (source lines 134-161) adds the two rules
to the listener in order. -/
def registeredRules : Except String (List RuleModel) :=
  (addRule [] sampleApiRule).bind (fun rs => addRule rs sampleApiCustomerRule)

/-- The listener's rule set after construction. -/
def listenerRules : List RuleModel :=
  match registeredRules with
  | Except.ok rs => rs
  | Except.error _ => []

/-- All non-empty suffixes of a character list, plus the empty suffix. -/
def tailsOf : List Char → List (List Char)
  | [] => [[]]
  | c :: cs => (c :: cs) :: tailsOf cs

/-- ALB path-pattern matching on character lists: a literal character
matches itself, `?` matches exactly one character, and `*` matches zero or
more characters. -/
def patMatch : List Char → List Char → Bool
  | [], s => s.isEmpty
  | p :: ps, s =>
    if p = '*' then (tailsOf s).any (fun t => patMatch ps t)
    else
      match s with
      | [] => false
      | c :: cs => (p = '?' || p = c) && patMatch ps cs

/-- ALB path-pattern matching on strings. -/
def patternMatches (pat p : String) : Bool :=
  patMatch pat.data p.data

/-- A rule matches a request path when any of its path patterns matches
(`ListenerCondition.pathPatterns`). -/
def matchesRule (r : RuleModel) (p : String) : Bool :=
  r.pathPatterns.any (fun pat => patternMatches pat p)

/-- Keep the rule with the lowest priority number. -/
def pickBest (acc : Option RuleModel) (r : RuleModel) : Option RuleModel :=
  match acc with
  | none => some r
  | some b => if r.priority < b.priority then some r else some b

/-- Listener evaluation of a request path: among the rules whose pattern
set matches, the one with the lowest priority number forwards to its
target group; when no rule matches, the default action answers. -/
def evalListener (rules : List RuleModel) (dflt : ListenerActionModel)
    (p : String) : ListenerActionModel :=
  match (rules.filter (fun r => matchesRule r p)).foldl pickBest none with
  | some r => ListenerActionModel.forward r.targetGroupId
  | none => dflt

/-- Container port protocols (`Protocol` in the source). -/
inductive ProtocolModel where
  | tcp
  | udp
deriving DecidableEq, Repr

/-- One port mapping of the container definition. -/
structure PortMappingModel where
  containerPort : Nat
  protocol : ProtocolModel
deriving DecidableEq, Repr

/-- The container definition added to the task definition (source lines 114-123). -/
structure ContainerModel where
  containerName : String
  ecrRepositoryName : String
  logStreamPrefixName : String
  portMappings : List PortMappingModel
deriving DecidableEq, Repr

/-- The `SampleApi` container: image from the ECR repository named
`sample-api`, awsLogs stream prefix `SampleApi-Logs`, port 80/TCP. -/
def sampleApiContainer : ContainerModel :=
  { containerName := "SampleApi", ecrRepositoryName := "sample-api",
    logStreamPrefixName := "SampleApi-Logs",
    portMappings := [ { containerPort := 80, protocol := ProtocolModel.tcp } ] }

/-- The Fargate task definition (source lines 108-111) with its containers. -/
structure TaskDefinitionModel where
  memoryLimitMiB : Nat
  cpu : Nat
  containers : List ContainerModel
deriving DecidableEq, Repr

/-- The stack's single task definition: 512 MiB, 256 CPU, one container. -/
def taskDefinition : TaskDefinitionModel :=
  { memoryLimitMiB := 512, cpu := 256, containers := [sampleApiContainer] }

/-- The Fargate service (source lines 126-131). -/
structure ServiceModel where
  clusterName : String
  taskDefinition : TaskDefinitionModel
  desiredCount : Nat
  assignPublicIp : Bool
deriving DecidableEq, Repr

/-- The stack's ECS service: cluster `SampleApi`, desired count 2, no public IP. -/
def ecsService : ServiceModel :=
  { clusterName := "SampleApi", taskDefinition := taskDefinition,
    desiredCount := 2, assignPublicIp := false }

/-- One argument record of `registerLoadBalancerTargets` (source lines 134-161). -/
structure TargetRegistration where
  containerName : String
  newTargetGroupId : String
  rule : RuleModel
deriving DecidableEq, Repr

/-- The stack's two target registrations: the same container is registered
in target group A (`SampleApiTargetGroup`, rule priority 1) and in target
group B (`SampleApiCustomerTargetGroup`, rule priority 2). -/
def targetRegistrations : List TargetRegistration :=
  [ { containerName := sampleApiContainer.containerName,
      newTargetGroupId := "SampleApiTargetGroup", rule := sampleApiRule },
    { containerName := sampleApiContainer.containerName,
      newTargetGroupId := "SampleApiCustomerTargetGroup", rule := sampleApiCustomerRule } ]

/-- One running replica of the task definition. -/
structure ReplicaModel where
  taskDefinition : TaskDefinitionModel
  portMappings : List PortMappingModel
  targetGroups : List String
  assignPublicIp : Bool
deriving DecidableEq, Repr

/-- Modelled from the spec: the scaling controller (an external
collaborator, spec section 4.4) converges the actual replica count to the
service's desired count; each replica runs the service's task definition
and is registered as a member of every target group of the service's
target registrations. -/
def serviceReplicas (svc : ServiceModel) (regs : List TargetRegistration) :
    List ReplicaModel :=
  List.replicate svc.desiredCount
    { taskDefinition := svc.taskDefinition,
      portMappings := (svc.taskDefinition.containers.map (fun c => c.portMappings)).flatten,
      targetGroups := regs.map (fun r => r.newTargetGroupId),
      assignPublicIp := svc.assignPublicIp }

/-- Attachment class of a VPC endpoint. -/
inductive EndpointClass where
  | interfaceClass
  | gatewayClass
deriving DecidableEq, Repr

/-- One VPC endpoint created in `setupVpcEndpointsForEcr` (source lines 166-216). -/
structure EndpointModel where
  endpointId : String
  serviceIdentifier : String
  endpointClass : EndpointClass
  subnetKind : SubnetKind
  privateDnsEnabled : Bool
deriving DecidableEq, Repr

/-- The four endpoints of the Connectivity Fabric: the two ECR interface
endpoints use service names pinned to region us-east-1; the CloudWatch
Logs endpoint uses the region-agnostic managed service constant
`CLOUDWATCH_LOGS`; S3 is a gateway endpoint (no security group, no
private DNS flag). -/
def vpcEndpoints : List EndpointModel :=
  [ { endpointId := "EcrInterfaceEndpointDkr",
      serviceIdentifier := "com.amazonaws.us-east-1.ecr.dkr",
      endpointClass := EndpointClass.interfaceClass,
      subnetKind := SubnetKind.isolatedSubnet, privateDnsEnabled := true },
    { endpointId := "EcrInterfaceEndpointApi",
      serviceIdentifier := "com.amazonaws.us-east-1.ecr.api",
      endpointClass := EndpointClass.interfaceClass,
      subnetKind := SubnetKind.isolatedSubnet, privateDnsEnabled := true },
    { endpointId := "CloudWatchInterfaceEndpoint",
      serviceIdentifier := "CLOUDWATCH_LOGS",
      endpointClass := EndpointClass.interfaceClass,
      subnetKind := SubnetKind.isolatedSubnet, privateDnsEnabled := true },
    { endpointId := "S3GatewayEndpoint",
      serviceIdentifier := "S3",
      endpointClass := EndpointClass.gatewayClass,
      subnetKind := SubnetKind.isolatedSubnet, privateDnsEnabled := false } ]

/-- HTTP methods used by the stack (`HttpMethod` in the source). -/
inductive HttpMethodModel where
  | anyMethod
  | get
deriving DecidableEq, Repr

/-- The HTTP API route created in `setupApiGatewayVpcLink`
(source lines 239-249): its route key, the integration's method, the VPC
link it goes through, and the listener it targets. -/
structure HttpRouteModel where
  routePath : String
  routeMethod : HttpMethodModel
  integrationMethod : HttpMethodModel
  vpcLinkName : String
  listenerId : String
deriving DecidableEq, Repr

/-- The single route of the HTTP API: route key `ANY /\x7bproxy+\x7d`,
integration method `ANY`, through `HttpVpcLink-ECS` to the internal
listener. -/
def httpApiRoutes : List HttpRouteModel :=
  [ { routePath := "/\x7bproxy+\x7d",
      routeMethod := HttpMethodModel.anyMethod,
      integrationMethod := HttpMethodModel.anyMethod,
      vpcLinkName := "HttpVpcLink-ECS",
      listenerId := "InternalHttpListener" } ]

/-- Resource-construction events of the stack constructor, in the order the
source statements execute. -/
inductive Event where
  | vpcCreated
  | albSgCreated
  | albCreated
  | listenerCreated
  | defaultActionSet
  | endpointSgCreated
  | ecrDkrEndpointCreated
  | ecrApiEndpointCreated
  | logsEndpointCreated
  | s3EndpointCreated
  | clusterCreated
  | taskDefCreated
  | containerAdded
  | serviceCreated
  | targetGroupACreated
  | targetGroupBCreated
  | vpcLinkCreated
  | httpApiCreated
  | integrationCreated
  | routeCreated
deriving DecidableEq, Repr

/-- The construction sequence of the constructor (source lines 40-57):
`setupVpc`, then `setupAlb` (security group, ALB, listener, default
action), then `setupVpcEndpointsForEcr`, then `setupEcsService`, then
`setupApiGatewayVpcLink` (VPC link, HTTP API, integration, route). -/
def constructionTrace : List Event :=
  [ Event.vpcCreated,
    Event.albSgCreated, Event.albCreated, Event.listenerCreated, Event.defaultActionSet,
    Event.endpointSgCreated, Event.ecrDkrEndpointCreated, Event.ecrApiEndpointCreated,
    Event.logsEndpointCreated, Event.s3EndpointCreated,
    Event.clusterCreated, Event.taskDefCreated, Event.containerAdded,
    Event.serviceCreated, Event.targetGroupACreated, Event.targetGroupBCreated,
    Event.vpcLinkCreated, Event.httpApiCreated, Event.integrationCreated,
    Event.routeCreated ]

/-- Position of the first occurrence of an event in a trace (length of the
trace when absent). -/
def listPos : List Event → Event → Nat
  | [], _ => 0
  | x :: xs, e => if x = e then 0 else listPos xs e + 1

/-- Modelled from the spec: requesting a zone count above the
environment's availability is a fatal configuration error, surfaced at
provisioning time, not retried (spec section 4.1); the check is performed
by the external provisioning engine, not by code under `src/`. -/
def setupVpcChecked (requestedAzs availableAzs : Nat) : Except String VpcProps :=
  if availableAzs < requestedAzs then
    Except.error "zone count exceeds availability"
  else
    Except.ok { maxAzs := requestedAzs, natGateways := 0 }

/-- Modelled from the spec: default subnet placement of the ECS service
(no `vpcSubnets` is passed at source lines 126-131): private-with-egress
subnets when they exist, otherwise the isolated subnets. -/
def defaultServiceSubnets (subnets : List SubnetModel) : List SubnetModel :=
  let withEgress := selectSubnets subnets SubnetKind.privateWithEgress
  if withEgress.isEmpty then selectSubnets subnets SubnetKind.isolatedSubnet
  else withEgress

/-- The whole constructed topology, gathered in one record. -/
structure TopologyModel where
  vpc : VpcProps
  albProps : AlbProps
  albIngress : List IngressRule
  listenerDefault : ListenerActionModel
  rules : List RuleModel
  service : ServiceModel
  endpoints : List EndpointModel
  routes : List HttpRouteModel
  trace : List Event
deriving DecidableEq, Repr

/-- The stack constructor takes no configuration input that affects the
topology: every parameter is a fixed constant in the source. -/
def buildTopology (_ : Unit) : TopologyModel :=
  { vpc := vpcProps, albProps := internalAlbProps,
    albIngress := internalAlbSgIngress, listenerDefault := defaultAction,
    rules := listenerRules, service := ecsService,
    endpoints := vpcEndpoints, routes := httpApiRoutes,
    trace := constructionTrace }

/-! Helper lemmas shared by the claim theorems. -/

/-- The listener's rule set is the two registered rules, in order. -/
theorem listenerRules_def : listenerRules = [sampleApiRule, sampleApiCustomerRule] := rfl

/-- Folding list-append of images over a list from an accumulator is the
accumulator followed by the mapped list. -/
theorem foldl_append_eq_map {α β : Type} (f : α → β) (l : List α) (acc : List β) :
    l.foldl (fun a x => a ++ [f x]) acc = acc ++ l.map f := by
  induction l generalizing acc with
  | nil => simp
  | cons x xs ih => simp [ih]

/-! Claim theorems. -/

/-- C1: The constructed listener rule set is exactly a priority-1 rule
with path pattern `/` targeting `SampleApiTargetGroup` (target group A,
health check `/`), a priority-2 rule with path pattern `/customers`
targeting `SampleApiCustomerTargetGroup` (target group B, health check
`/`), and a default action returning a fixed HTTP 200 response with body
"No routes defined". -/
theorem listener_rule_set_exact :
    listenerRules =
      [ { priority := 1, pathPatterns := ["/"],
          targetGroupId := "SampleApiTargetGroup", healthCheckPath := "/" },
        { priority := 2, pathPatterns := ["/customers"],
          targetGroupId := "SampleApiCustomerTargetGroup", healthCheckPath := "/" } ] ∧
    defaultAction = ListenerActionModel.fixedResponse 200 "No routes defined" :=
  ⟨rfl, rfl⟩

/-- C2: For every request path, if the `/customers` rule matches and no
rule of strictly lower priority matches, evaluation forwards to target
group B; if the `/` rule matches and no lower-priority rule matches,
evaluation forwards to target group A; if no rule matches, the result is
the fixed HTTP 200 response with body "No routes defined"; and the
priorities of the rule set are pairwise distinct, so ties cannot occur. -/
theorem lowest_priority_match_wins (p : String) :
    (matchesRule sampleApiCustomerRule p = true →
      (∀ r ∈ listenerRules, r.priority < sampleApiCustomerRule.priority →
        matchesRule r p = false) →
      evalListener listenerRules defaultAction p =
        ListenerActionModel.forward "SampleApiCustomerTargetGroup") ∧
    (matchesRule sampleApiRule p = true →
      (∀ r ∈ listenerRules, r.priority < sampleApiRule.priority →
        matchesRule r p = false) →
      evalListener listenerRules defaultAction p =
        ListenerActionModel.forward "SampleApiTargetGroup") ∧
    ((∀ r ∈ listenerRules, matchesRule r p = false) →
      evalListener listenerRules defaultAction p =
        ListenerActionModel.fixedResponse 200 "No routes defined") ∧
    listenerRules.Pairwise (fun a b => a.priority ≠ b.priority) := by
  refine ⟨?_, ?_, ?_, by decide⟩
  · intro h2 hlow
    have h1 : matchesRule sampleApiRule p = false :=
      hlow sampleApiRule (by simp [listenerRules_def]) (by decide)
    have hfil : List.filter (fun r => matchesRule r p)
        [sampleApiRule, sampleApiCustomerRule] = [sampleApiCustomerRule] := by
      simp [h1, h2]
    simp only [evalListener, listenerRules_def, hfil]
    rfl
  · intro h1 _
    by_cases h2 : matchesRule sampleApiCustomerRule p = true
    · have hfil : List.filter (fun r => matchesRule r p)
          [sampleApiRule, sampleApiCustomerRule] =
          [sampleApiRule, sampleApiCustomerRule] := by
        simp [h1, h2]
      simp only [evalListener, listenerRules_def, hfil]
      rfl
    · rw [Bool.not_eq_true] at h2
      have hfil : List.filter (fun r => matchesRule r p)
          [sampleApiRule, sampleApiCustomerRule] = [sampleApiRule] := by
        simp [h1, h2]
      simp only [evalListener, listenerRules_def, hfil]
      rfl
  · intro hnone
    have h1 : matchesRule sampleApiRule p = false :=
      hnone sampleApiRule (by simp [listenerRules_def])
    have h2 : matchesRule sampleApiCustomerRule p = false :=
      hnone sampleApiCustomerRule (by simp [listenerRules_def])
    have hfil : List.filter (fun r => matchesRule r p)
        [sampleApiRule, sampleApiCustomerRule] = [] := by
      simp [h1, h2]
    simp only [evalListener, listenerRules_def, hfil]
    rfl

/-- Witness for C2 at the concrete path `/customers`. -/
theorem lowest_priority_match_wins_witness :
    evalListener listenerRules defaultAction "/customers" =
      ListenerActionModel.forward "SampleApiCustomerTargetGroup" :=
  (lowest_priority_match_wins "/customers").1 (by decide) (by decide)

/-- C3: The VPC has no NAT gateway and no private-with-egress subnet, the
internal ALB is not internet facing and sits in the isolated subnets, the
ECS service is placed in the isolated subnets by default and assigns no
public IP, and every replica of the service is created without a public
IP, so isolated subnets have zero internet egress by construction. -/
theorem isolated_only_topology :
    vpcProps.natGateways = 0 ∧
    selectSubnets (vpcSubnets vpcProps) SubnetKind.privateWithEgress = [] ∧
    internalAlbProps.internetFacing = false ∧
    internalAlbProps.subnetKind = SubnetKind.isolatedSubnet ∧
    (∀ s ∈ defaultServiceSubnets (vpcSubnets vpcProps),
      s.kind = SubnetKind.isolatedSubnet) ∧
    ecsService.assignPublicIp = false ∧
    (∀ r ∈ serviceReplicas ecsService targetRegistrations,
      r.assignPublicIp = false) := by decide

/-- C4: The declared routing rules have pairwise-distinct priorities, the
registration of the two rules succeeds, and adding a rule whose priority
collides with an existing rule fails with an error (the rule list is not
extended, so no resource is created). -/
theorem duplicate_priority_rejected :
    listenerRules.Pairwise (fun a b => a.priority ≠ b.priority) ∧
    registeredRules = Except.ok [sampleApiRule, sampleApiCustomerRule] ∧
    (∀ (rules : List RuleModel) (r : RuleModel),
      (∃ q ∈ rules, q.priority = r.priority) →
      ∃ msg, addRule rules r = Except.error msg) := by
  refine ⟨by decide, rfl, ?_⟩
  rintro rules r ⟨q, hq, hpr⟩
  refine ⟨"duplicate rule priority", ?_⟩
  have hany : rules.any (fun q => q.priority == r.priority) = true := by
    rw [List.any_eq_true]
    exact ⟨q, hq, by simp [hpr]⟩
  simp [addRule, hany]

/-- Witness for C4: re-adding the priority-1 rule is rejected. -/
theorem duplicate_priority_rejected_witness :
    ∃ msg, addRule [sampleApiRule] sampleApiRule = Except.error msg :=
  duplicate_priority_rejected.2.2 [sampleApiRule] sampleApiRule
    ⟨sampleApiRule, by simp, rfl⟩

/-- C5: The listener security group permits inbound TCP/80 from any IPv4
source; the interface-endpoint security group's ingress rules are exactly
one TCP/443 rule per CIDR block of the given isolated-subnet list, in
order, and nothing else; and re-deriving the rules from the same subnet
list yields the same rule set. -/
theorem security_boundary_rules :
    internalAlbSgIngress = [ { peer := PeerSpec.anyIpv4, tcpPort := 80 } ] ∧
    (∀ isolated : List SubnetModel,
      interfaceEndpointSgIngress isolated =
        isolated.map (fun s =>
          { peer := PeerSpec.ipv4Peer s.ipv4CidrBlock, tcpPort := 443 })) ∧
    (∀ s t : List SubnetModel, s = t →
      interfaceEndpointSgIngress s = interfaceEndpointSgIngress t) := by
  refine ⟨rfl, ?_, ?_⟩
  · intro isolated
    simpa using foldl_append_eq_map
      (fun s => ({ peer := PeerSpec.ipv4Peer s.ipv4CidrBlock,
                   tcpPort := 443 } : IngressRule)) isolated []
  · intro s t h
    rw [h]

/-- Witness for C5: the derivation at the stack's own isolated subnets. -/
theorem security_boundary_rules_witness :
    interfaceEndpointSgIngress (selectSubnets (vpcSubnets vpcProps) SubnetKind.isolatedSubnet) =
      (selectSubnets (vpcSubnets vpcProps) SubnetKind.isolatedSubnet).map (fun s =>
        { peer := PeerSpec.ipv4Peer s.ipv4CidrBlock, tcpPort := 443 }) :=
  security_boundary_rules.2.1
    (selectSubnets (vpcSubnets vpcProps) SubnetKind.isolatedSubnet)

/-- C6: The HTTP API declares exactly one route: the wildcard path pattern
with the greedy proxy segment, method ANY, forwarded with method ANY
through the VPC link `HttpVpcLink-ECS` to the internal listener. -/
theorem single_wildcard_route :
    httpApiRoutes =
      [ { routePath := "/\x7bproxy+\x7d",
          routeMethod := HttpMethodModel.anyMethod,
          integrationMethod := HttpMethodModel.anyMethod,
          vpcLinkName := "HttpVpcLink-ECS",
          listenerId := "InternalHttpListener" } ] ∧
    httpApiRoutes.length = 1 :=
  ⟨rfl, rfl⟩

/-- C7: In the construction sequence, the listener is created and its
default fixed-response action configured strictly before the VPC link,
the HTTP API integration, and the route are created. -/
theorem listener_configured_before_bridge :
    Event.defaultActionSet ∈ constructionTrace ∧
    listPos constructionTrace Event.listenerCreated <
      listPos constructionTrace Event.defaultActionSet ∧
    listPos constructionTrace Event.defaultActionSet <
      listPos constructionTrace Event.vpcLinkCreated ∧
    listPos constructionTrace Event.defaultActionSet <
      listPos constructionTrace Event.integrationCreated ∧
    listPos constructionTrace Event.defaultActionSet <
      listPos constructionTrace Event.routeCreated := by decide

/-- C8: Requesting the stack's zone count when the environment offers
fewer availability zones makes the network-boundary construction fail
with a configuration error instead of producing a topology with fewer
zones than requested. -/
theorem zone_count_above_availability_fatal (availableAzs : Nat)
    (h : availableAzs < vpcProps.maxAzs) :
    setupVpcChecked vpcProps.maxAzs availableAzs =
      Except.error "zone count exceeds availability" := by
  simp [setupVpcChecked, h]

/-- Witness for C8: one available zone against the requested two. -/
theorem zone_count_above_availability_fatal_witness :
    setupVpcChecked vpcProps.maxAzs 1 =
      Except.error "zone count exceeds availability" :=
  zone_count_above_availability_fatal 1 (by decide)

/-- C9: With desired count 2 and zone count 2, the workload is exactly 2
replicas of the single task definition, whose container listens on port
80/TCP, and every replica is a member of both target group A and target
group B. -/
theorem two_replicas_in_both_target_groups :
    ecsService.desiredCount = 2 ∧
    vpcProps.maxAzs = 2 ∧
    ecsService.taskDefinition = taskDefinition ∧
    taskDefinition.containers = [sampleApiContainer] ∧
    (serviceReplicas ecsService targetRegistrations).length = 2 ∧
    (∀ r ∈ serviceReplicas ecsService targetRegistrations,
      r.taskDefinition = taskDefinition ∧
      r.portMappings = [ { containerPort := 80, protocol := ProtocolModel.tcp } ] ∧
      r.targetGroups = ["SampleApiTargetGroup", "SampleApiCustomerTargetGroup"]) := by
  decide

/-- C10: The topology construction takes no configuration input — the
zone count, desired count, image repository name, log stream prefix,
container port, and the us-east-1-pinned ECR endpoint service names are
fixed constants — so any two runs produce identical topologies. -/
theorem fixed_configuration_deterministic :
    (∀ u v : Unit, buildTopology u = buildTopology v) ∧
    (buildTopology ()).vpc.maxAzs = 2 ∧
    (buildTopology ()).service.desiredCount = 2 ∧
    (buildTopology ()).service.taskDefinition.containers.map
      (fun c => c.ecrRepositoryName) = ["sample-api"] ∧
    (buildTopology ()).service.taskDefinition.containers.map
      (fun c => c.logStreamPrefixName) = ["SampleApi-Logs"] ∧
    (buildTopology ()).service.taskDefinition.containers.map
      (fun c => c.portMappings) =
        [[ { containerPort := 80, protocol := ProtocolModel.tcp } ]] ∧
    (buildTopology ()).endpoints.map (fun e => e.serviceIdentifier) =
      [ "com.amazonaws.us-east-1.ecr.dkr", "com.amazonaws.us-east-1.ecr.api",
        "CLOUDWATCH_LOGS", "S3" ] :=
  ⟨fun _ _ => rfl, rfl, rfl, rfl, rfl, rfl, rfl⟩

/-- Witness for C10: two runs of the construction coincide. -/
theorem fixed_configuration_deterministic_witness :
    buildTopology () = buildTopology () :=
  fixed_configuration_deterministic.1 () ()

end HttpApiPrivateIntegrationEcs
